import Mathlib

/-!
Verification development for the DHL logistics dashboard (`src/streamlit.py`).

The Python source is shallowly embedded: every helper function of the source
becomes a Lean definition over an explicit model of its inputs (HTTP outcomes,
JSON values, widget selections, random draws), and the claims about the
program are proved as theorems over those definitions.

Modelling conventions:
* An HTTP exchange is a completed outcome: either a final `response` with a
  numeric status code and an already-parsed JSON body, or a `transportError`
  (connection error, timeout, too many redirects, ... — everything the
  `requests` library raises as a `RequestException` before a response is
  available).
* `requests.Response.raise_for_status` raises exactly for status codes in
  [400, 600); this is `raisesForStatus`.
* Python truthiness of JSON-shaped values is `Json.truthy`.
* Randomness is modelled by passing the drawn values (an index for
  `random.choice`, a noise sequence for `np.random.normal`) as arguments.
* Python strings are modelled as Lean `String`/`List Char`; `str.lower` is
  modelled on the ASCII fragment (all string constants of the source are
  ASCII).
-/

/-- A parsed JSON value, as returned by `response.json()`.  Numbers are
modelled as rationals (covering both Python ints and the decimal floats the
backend may send). -/
inductive Json where
  | null : Json
  | bool (b : Bool) : Json
  | num (q : Rat) : Json
  | str (s : String) : Json
  | arr (elems : List Json) : Json
  | obj (fields : List (String × Json)) : Json

/-- Python truthiness of a JSON value: `None`, `False`, `0`, `""`, `[]` and
`\x7b\x7d` are falsy, everything else is truthy. -/
def Json.truthy : Json → Bool
  | .null => false
  | .bool b => b
  | .num q => q != 0
  | .str s => s != ""
  | .arr elems => !elems.isEmpty
  | .obj fields => !fields.isEmpty

/-- Python truthiness of an optional JSON value (`None` for `Option.none`). -/
def pyTruthyOpt : Option Json → Bool
  | none => false
  | some j => j.truthy

/-- Outcome of one HTTP call made through the `requests` library:
* `response status body` — a final response (after redirect handling) whose
  body parses as JSON.  The HTTP stack forces an empty body for statuses
  such as 204 and 304, and an empty body does not parse, so those statuses
  can only occur as `badJson`.
* `badJson status errText` — a final response whose body is not valid JSON
  (an empty body included); `response.json()` raises a
  `requests.exceptions.JSONDecodeError` (a `RequestException`) with message
  `errText`.
* `transportError msg` — a failure raised as a `RequestException` before a
  response is available (connection error, timeout, too many redirects,
  ...). -/
inductive HttpOutcome where
  | response (status : Nat) (body : Json) : HttpOutcome
  | badJson (status : Nat) (errText : String) : HttpOutcome
  | transportError (msg : String) : HttpOutcome

/-- `requests.Response.raise_for_status` raises `HTTPError` exactly for 4xx
client errors and 5xx server errors. -/
def raisesForStatus (status : Nat) : Bool :=
  400 ≤ status && status < 600

/-- `API_BASE_URL` constant of the source. -/
def API_BASE_URL : String := "http://localhost:8000"

/-- The URL targeted for a given endpoint path, `f"..../endpoint"` in the
source. -/
def apiUrl (endpoint : String) : String :=
  API_BASE_URL ++ "/" ++ endpoint

/-- Text of the `HTTPError` raised by `raise_for_status` (status code and
target URL, as rendered by `requests`). -/
def httpErrorText (status : Nat) (endpoint : String) : String :=
  toString status ++ " Error for url: " ++ apiUrl endpoint

/-- Result of one of the three HTTP helper functions: the value returned to
the caller together with the list of `st.error` messages displayed. -/
structure FetchResult where
  result : Option Json
  errors : List String

/-- `fetch_data` (source lines 89-96): GET the endpoint, `raise_for_status`
(raised before the body is parsed), then return `response.json()`; on any
`RequestException` display one `st.error` message naming the endpoint and
return `None`. -/
def fetch_data (resp : HttpOutcome) (endpoint : String) : FetchResult :=
  match resp with
  | .transportError e =>
      ⟨none, ["Error fetching data from " ++ endpoint ++ ": " ++ e]⟩
  | .badJson status errText =>
      if raisesForStatus status then
        ⟨none, ["Error fetching data from " ++ endpoint ++ ": "
                  ++ httpErrorText status endpoint]⟩
      else
        ⟨none, ["Error fetching data from " ++ endpoint ++ ": " ++ errText]⟩
  | .response status body =>
      if raisesForStatus status then
        ⟨none, ["Error fetching data from " ++ endpoint ++ ": "
                  ++ httpErrorText status endpoint]⟩
      else ⟨some body, []⟩

/-- `update_data` (source lines 98-105): PUT with a JSON body, same
error-to-message contract as `fetch_data`. -/
def update_data (resp : HttpOutcome) (endpoint : String) : FetchResult :=
  match resp with
  | .transportError e =>
      ⟨none, ["Error updating data at " ++ endpoint ++ ": " ++ e]⟩
  | .badJson status errText =>
      if raisesForStatus status then
        ⟨none, ["Error updating data at " ++ endpoint ++ ": "
                  ++ httpErrorText status endpoint]⟩
      else
        ⟨none, ["Error updating data at " ++ endpoint ++ ": " ++ errText]⟩
  | .response status body =>
      if raisesForStatus status then
        ⟨none, ["Error updating data at " ++ endpoint ++ ": "
                  ++ httpErrorText status endpoint]⟩
      else ⟨some body, []⟩

/-- `create_data` (source lines 107-114): POST with a JSON body, same
error-to-message contract as `fetch_data`. -/
def create_data (resp : HttpOutcome) (endpoint : String) : FetchResult :=
  match resp with
  | .transportError e =>
      ⟨none, ["Error creating data at " ++ endpoint ++ ": " ++ e]⟩
  | .badJson status errText =>
      if raisesForStatus status then
        ⟨none, ["Error creating data at " ++ endpoint ++ ": "
                  ++ httpErrorText status endpoint]⟩
      else
        ⟨none, ["Error creating data at " ++ endpoint ++ ": " ++ errText]⟩
  | .response status body =>
      if raisesForStatus status then
        ⟨none, ["Error creating data at " ++ endpoint ++ ": "
                  ++ httpErrorText status endpoint]⟩
      else ⟨some body, []⟩

/-- A status code is 2xx.  This definition follows the wording of the spec
("2xx status"), to be compared against the boundary the code actually uses
(`raisesForStatus`). -/
def is2xx (status : Nat) : Bool :=
  200 ≤ status && status < 300

/-- Python `str.lower` on the ASCII fragment. -/
def pyLower (s : String) : String :=
  ⟨s.data.map Char.toLower⟩

/-- Python `str.replace(" ", "")`: every space character is removed. -/
def removeSpaces (s : String) : String :=
  ⟨s.data.filter (fun c => c != ' ')⟩

/-- The `status_lower` normalisation of `format_status` (source line 77):
`status.lower().replace(" ", "")`. -/
def normalizeStatus (s : String) : String :=
  removeSpaces (pyLower s)

/-- The f-string `f'<span class="..."> ... </span>'` used by
`format_status`. -/
def spanWrap (cssName s : String) : String :=
  "<span class=\"" ++ cssName ++ "\">" ++ s ++ "</span>"

/-- `format_status` (source lines 76-87): map a status string to a fixed
styled span by its lowercased, space-stripped form, else return it
unchanged. -/
def format_status (status : String) : String :=
  if normalizeStatus status = "delivered" then
    spanWrap "status-delivered" status
  else if normalizeStatus status = "intransit" ∨ normalizeStatus status = "in-transit" then
    spanWrap "status-intransit" status
  else if normalizeStatus status = "processing" then
    spanWrap "status-processing" status
  else if normalizeStatus status = "delayed" then
    spanWrap "status-delayed" status
  else status

/-- Token of the regular-expression fragment used to model
`pandas.Series.str.contains(pat, case=False)` (which compiles `pat` with
`re.search` and `re.IGNORECASE`): a literal (non-metacharacter) character
or the `.` wildcard (any character except a newline, re's default).
Patterns containing any other regex metacharacter are outside this model:
the definitions below are a model of pandas only on patterns in
`regexFragment`, and every theorem about non-literal patterns carries that
hypothesis. -/
inductive RTok where
  | lit (c : Char) : RTok
  | dot : RTok

/-- Compile a pattern string of the modelled fragment: `.` becomes a
wildcard, any other character a literal. -/
def parseRegex (p : List Char) : List RTok :=
  p.map (fun c => if c = '.' then RTok.dot else RTok.lit c)

/-- One token matches one character: a literal case-insensitively (per
`re.IGNORECASE`), the `.` wildcard any character except `'\n'` (re's
default, without `re.DOTALL`). -/
def tokMatch (t : RTok) (c : Char) : Bool :=
  match t with
  | .dot => c != '\n'
  | .lit l => l.toLower == c.toLower

/-- The token list matches at the start of the character list. -/
def matchHere : List RTok → List Char → Bool
  | [], _ => true
  | _ :: _, [] => false
  | t :: ts, c :: cs => tokMatch t c && matchHere ts cs

/-- `re.search`: the token list matches somewhere in the character list. -/
def reSearch (ts : List RTok) (s : List Char) : Bool :=
  matchHere ts s ||
    match s with
    | [] => false
    | _ :: cs => reSearch ts cs

/-- `Series.str.contains(pat, case=False)` applied to one element.  This is
a model of pandas only for patterns in `regexFragment` (literals and the
`.` wildcard); outside the fragment pandas' full regex engine (and its
`re.error` on invalid patterns) is not modelled. -/
def pdStrContainsCI (pat s : String) : Bool :=
  reSearch (parseRegex pat.data) s.data

/-- Boolean prefix test on character lists (`needle` begins `hay`). -/
def isPreB : List Char → List Char → Bool
  | [], _ => true
  | _ :: _, [] => false
  | a :: as, b :: bs => a == b && isPreB as bs

/-- A customer row as consumed by the Customers page (fields of the backend
`customers` payload that the page reads). -/
structure Customer where
  CustomerID : Int
  Name : String
  Email : String
  Phone : String
  Address : String
  Type' : String
deriving DecidableEq

/-- Client-side filtering of the Customers page (source lines 281-285):
apply the name filter when the text is non-empty (pandas
`str.contains(filter_name, case=False)`, faithful for filter texts in
`regexFragment`), then the type filter when the selection is not `"All"`
(exact equality). -/
def filterCustomers (customers : List Customer) (filter_name filter_type : String) :
    List Customer :=
  let step1 :=
    if filter_name ≠ "" then
      customers.filter (fun c => pdStrContainsCI filter_name c.Name)
    else customers
  if filter_type ≠ "All" then
    step1.filter (fun c => c.Type' == filter_type)
  else step1

/-- The fixed 20-city coordinate table of the Shipments page (source lines
464-485), in source order. -/
def cityTable : List (String × Rat × Rat) :=
  [("New York", 40.7128, -74.0060),
   ("Los Angeles", 34.0522, -118.2437),
   ("Chicago", 41.8781, -87.6298),
   ("Houston", 29.7604, -95.3698),
   ("Phoenix", 33.4484, -112.0740),
   ("Philadelphia", 39.9526, -75.1652),
   ("San Antonio", 29.4241, -98.4936),
   ("San Diego", 32.7157, -117.1611),
   ("Dallas", 32.7767, -96.7970),
   ("San Jose", 37.3382, -121.8863),
   ("Austin", 30.2672, -97.7431),
   ("Jacksonville", 30.3322, -81.6557),
   ("San Francisco", 37.7749, -122.4194),
   ("Columbus", 39.9612, -82.9988),
   ("Indianapolis", 39.7684, -86.1581),
   ("Seattle", 47.6062, -122.3321),
   ("Denver", 39.7392, -104.9903),
   ("Washington", 38.9072, -77.0369),
   ("Boston", 42.3601, -71.0589),
   ("Nashville", 36.1627, -86.7816)]

/-- Dictionary lookup `locations[location]` guarded by
`location in locations` (keys of the table are distinct, so the first match
is the dictionary entry). -/
def lookupCity (loc : String) : Option (Rat × Rat) :=
  (cityTable.find? (fun e => e.1 == loc)).map (fun e => e.2)

/-- `random.choice(list(locations.keys()))` followed by
`locations[random_location]`: the draw is modelled by the index `r` reduced
modulo the table size, and selects that entry's coordinates. -/
def fallbackCoord (r : Nat) : Rat × Rat :=
  (cityTable.get ⟨r % cityTable.length, Nat.mod_lt _ (by decide)⟩).2

/-- Coordinate placement of one shipment row on the map (source lines
491-498): the table entry when the reported location is a key, otherwise the
randomly drawn table entry. -/
def mapPlacement (r : Nat) (loc : String) : Rat × Rat :=
  match lookupCity loc with
  | some c => c
  | none => fallbackCoord r

/-- One synthetic trend series of the Analytics page (source lines 730,
734, 738): 30 points, each `max(min(base + noise, hi), lo)`; the i-th
daily noise draw is `noise i`. -/
def clampSeries (base lo hi : Rat) (noise : Nat → Rat) : List Rat :=
  (List.range 30).map (fun i => max (min (base + noise i) hi) lo)

/-- `efficiency_data` (source line 730): base efficiency clamped to
[50, 100]. -/
def efficiency_data (base : Rat) (noise : Nat → Rat) : List Rat :=
  clampSeries base 50 100 noise

/-- `rating_data` (source line 734): base rating clamped to [1, 5]. -/
def rating_data (base : Rat) (noise : Nat → Rat) : List Rat :=
  clampSeries base 1 5 noise

/-- `ontime_data` (source line 738): base on-time percentage clamped to
[70, 100]. -/
def ontime_data (base : Rat) (noise : Nat → Rat) : List Rat :=
  clampSeries base 70 100 noise

/-- Substring occurrence as a proposition: `sep` occurs contiguously in
`s`. -/
def occursIn (sep s : List Char) : Prop :=
  ∃ x y, s = x ++ sep ++ y

/-- Boolean substring occurrence (scan every suffix for a prefix match). -/
def occursB (sep s : List Char) : Bool :=
  isPreB sep s ||
    match s with
    | [] => false
    | _ :: t => occursB sep t

/-- Fuel-indexed core of Python `str.split(sep)` for a non-empty separator:
at each position, if the separator starts here, cut and skip it
(non-overlapping, left to right); otherwise carry the character into the
current chunk.  Fuel at least the length of the string makes the fuel
irrelevant (each step consumes at least one character). -/
def pySplitAux (sep : List Char) : Nat → List Char → List (List Char)
  | 0, s => [s]
  | fuel + 1, s =>
    if sep ≠ [] ∧ isPreB sep s then
      [] :: pySplitAux sep fuel (s.drop sep.length)
    else
      match s with
      | [] => [[]]
      | c :: rest =>
        match pySplitAux sep fuel rest with
        | [] => [[c]]
        | t :: ts => (c :: t) :: ts

/-- Python `str.split(sep)` for a non-empty separator (Python raises
`ValueError` on an empty separator, which the source never passes). -/
def pySplit (sep s : List Char) : List (List Char) :=
  pySplitAux sep s.length s

/-- Drop matching characters from the end of a list. -/
def dropTrail (p : Char → Bool) (cs : List Char) : List Char :=
  (cs.reverse.dropWhile p).reverse

/-- Python `str.strip(c)` for a one-character strip set: remove every copy
of `c` from both ends. -/
def pyStrip (c : Char) (cs : List Char) : List Char :=
  dropTrail (fun d => d == c) (cs.dropWhile (fun d => d == c))

/-- Is `c` an ASCII decimal digit (code points 48-57)? -/
def isDigitC (c : Char) : Bool :=
  48 ≤ c.toNat && c.toNat ≤ 57

/-- Numeric value of a digit string (fold of `acc * 10 + digit`). -/
def digitsVal (cs : List Char) : Nat :=
  cs.foldl (fun a c => a * 10 + (c.toNat - 48)) 0

/-- The ASCII digit character for `d` (meaningful for `d < 10`). -/
def digitChar10 (d : Nat) : Char :=
  Char.ofNat (48 + d)

/-- Fuel-indexed core of Python `str(n)` for a non-negative integer:
accumulate the decimal digits of `n` in front of `acc`.  Fuel at least `n`
makes the fuel irrelevant. -/
def natDigitsAux : Nat → Nat → List Char → List Char
  | 0, n, acc => digitChar10 n :: acc
  | fuel + 1, n, acc =>
    if n < 10 then digitChar10 n :: acc
    else natDigitsAux fuel (n / 10) (digitChar10 (n % 10) :: acc)

/-- Python `str(n)` for a non-negative integer: its decimal digits. -/
def natDigits (n : Nat) : List Char :=
  natDigitsAux n n []

/-- Core of Python `int(s)` after whitespace stripping: an optional sign
followed by a non-empty run of decimal digits; `none` models the
`ValueError` raised on anything else.  (Python additionally accepts
underscores between digits, which never arise here.) -/
def pyIntCore (t : List Char) : Option Int :=
  match t with
  | [] => none
  | c :: ds =>
    if c = '-' then
      if ds ≠ [] ∧ ds.all isDigitC then some (-(digitsVal ds : Int)) else none
    else if c = '+' then
      if ds ≠ [] ∧ ds.all isDigitC then some ((digitsVal ds : Int)) else none
    else if (c :: ds).all isDigitC then some ((digitsVal (c :: ds) : Int)) else none

/-- Python `int(s)`: strip surrounding whitespace, then parse an optionally
signed run of decimal digits. -/
def pyInt (cs : List Char) : Option Int :=
  pyIntCore (dropTrail Char.isWhitespace (cs.dropWhile Char.isWhitespace))

/-- Does `l` end with `suffix`? -/
def endsWithB (suffix l : List Char) : Bool :=
  isPreB suffix.reverse l.reverse

/-- The separator `"ID: "` used by the dropdown-label parsing. -/
def idSep : List Char := ['I', 'D', ':', ' ']

/-- The dropdown label `f"(Name) (ID: (id))"` (source lines 352, 442, 635),
for a record with name `name` and non-negative id `id`. -/
def formatLabel (name : List Char) (id : Nat) : List Char :=
  name ++ [' ', '('] ++ idSep ++ natDigits id ++ [')']

/-- The parsing step `int(selected.split("ID: ")[1].strip(")"))` (source
lines 356, 452, 637, 645); `none` models an uncaught `IndexError` (fewer
than two split parts) or `ValueError` (non-numeric remainder). -/
def parseLabel (label : List Char) : Option Int :=
  match (pySplit idSep label).get? 1 with
  | none => none
  | some part => pyInt (pyStrip ')' part)

/-- The JSON body posted by the Add Customer form: the `new_customer` dict
of source lines 319-330. -/
def customerJson (c : Customer) : Json :=
  Json.obj [("CustomerID", .num (c.CustomerID : Rat)),
            ("Name", .str c.Name),
            ("Email", .str c.Email),
            ("Phone", .str c.Phone),
            ("Address", .str c.Address),
            ("Type", .str c.Type')]

/-- Observable effects of handling one form submission: the HTTP write
requests issued (endpoint and JSON body), the `st.success`, `st.warning`
and `st.error` messages displayed, and whether `st.rerun()` was called. -/
structure FormEffects where
  posts : List (String × Json)
  puts : List (String × Json)
  successes : List String
  warnings : List String
  errors : List String
  reran : Bool

/-- Submission handler of the Add Customer form (source lines 334-340):
POST to `customers` only when both Name and Email are non-empty (Python
truthiness of the two strings), otherwise display one warning; a truthy
result displays a success message. -/
def submitNewCustomer (post : String → Json → HttpOutcome) (c : Customer) :
    FormEffects :=
  if c.Name ≠ "" ∧ c.Email ≠ "" then
    let r := create_data (post "customers" (customerJson c)) "customers"
    { posts := [("customers", customerJson c)],
      puts := [],
      successes := if pyTruthyOpt r.result then ["Customer added successfully!"] else [],
      warnings := [],
      errors := r.errors,
      reran := false }
  else
    { posts := [], puts := [], successes := [],
      warnings := ["Please fill in all required fields"],
      errors := [], reran := false }

/-- Endpoint of the per-shipment status update,
`f"shipments/(id)/status"`. -/
def statusEndpoint (sid : Int) : String :=
  "shipments/" ++ toString sid ++ "/status"

/-- Submission handler of the per-shipment status-update form (source lines
569-577): one PUT to `shipments/(id)/status` with body
`(("Status", new_status))`; `st.success` and `st.rerun()` run only when the
returned value is truthy (`if result:` in the source). -/
def submitStatusUpdate (put : String → Json → HttpOutcome) (sid : Int)
    (new_status : String) : FormEffects :=
  let body := Json.obj [("Status", .str new_status)]
  let r := update_data (put (statusEndpoint sid) body) (statusEndpoint sid)
  { posts := [],
    puts := [(statusEndpoint sid, body)],
    successes := if pyTruthyOpt r.result then ["Updated status to " ++ new_status] else [],
    warnings := [],
    errors := r.errors,
    reran := pyTruthyOpt r.result }

/-- Dictionary field lookup on a JSON object (`None` when the key is absent
or the value is not an object). -/
def Json.getF (j : Json) (k : String) : Option Json :=
  match j with
  | .obj fields => (fields.find? (fun p => p.1 == k)).map (fun p => p.2)
  | _ => none

/-- Python `dict.get(k, d)`. -/
def Json.getKeyD (j : Json) (k : String) (d : Json) : Json :=
  (j.getF k).getD d

/-- Python `k in d` for the JSON payloads consulted by the source (`'
customer_distribution' in customer_insights`): key containment for an
object; for non-dict payloads the source's membership test cannot hold for
these string keys and is modelled as `false`. -/
def Json.hasKey (j : Json) (k : String) : Bool :=
  match j with
  | .obj fields => fields.any (fun p => p.1 == k)
  | _ => false

/-- Cosmetic rendering of a JSON value inside an f-string (Python `str`). -/
def Json.display : Json → String
  | .null => "None"
  | .bool b => if b then "True" else "False"
  | .num q => toString q
  | .str s => s
  | .arr _ => "[...]"
  | .obj _ => "..."

/-- Extract a string; anything else models the `AttributeError`/`TypeError`
Python raises when the value is then used as a string. -/
def asStrE (j : Json) : Except String String :=
  match j with
  | .str s => .ok s
  | _ => .error "AttributeError"

/-- Extract a number; anything else models the `TypeError` raised when the
value is used in arithmetic or numeric formatting. -/
def asRatE (j : Json) : Except String Rat :=
  match j with
  | .num q => .ok q
  | _ => .error "TypeError"

/-- Extract an integer-valued number. -/
def asIntE (j : Json) : Except String Int :=
  match j with
  | .num q => if q.den == 1 then .ok q.num else .error "TypeError"
  | _ => .error "TypeError"

/-- Extract an array (row iteration); anything else models the `TypeError`
raised by `pd.DataFrame`/iteration. -/
def asArrE (j : Json) : Except String (List Json) :=
  match j with
  | .arr elems => .ok elems
  | _ => .error "TypeError"

/-- Dictionary access `row[k]`; a missing key models Python's `KeyError`. -/
def getKeyE (j : Json) (k : String) : Except String Json :=
  match j.getF k with
  | some v => .ok v
  | none => .error ("KeyError: " ++ k)

/-- Decode one customer row of the `customers` payload (the fields the
Customers page reads; the backend serves them as an int id and strings). -/
def decodeCustomer (j : Json) : Except String Customer := do
  let cid ← asIntE (← getKeyE j "CustomerID")
  let name ← asStrE (← getKeyE j "Name")
  let email ← asStrE (← getKeyE j "Email")
  let phone ← asStrE (← getKeyE j "Phone")
  let addr ← asStrE (← getKeyE j "Address")
  let ty ← asStrE (← getKeyE j "Type")
  pure ⟨cid, name, email, phone, addr, ty⟩

/-- Decode the `customers` payload into rows. -/
def decodeCustomers (j : Json) : Except String (List Customer) := do
  (← asArrE j).mapM decodeCustomer

/-- A shipment row as consumed by the Shipments page: the id is used to
build the update endpoint, `Status` is passed to `format_status` (a string,
else `AttributeError`), `CurrentLocation` is used as a dictionary key;
date and name fields are display-only. -/
structure ShipRow where
  ShipmentID : Int
  ShipmentName : Json
  Status : String
  CurrentLocation : String
  ShipmentDate : Json
  DeliveryDate : Json

/-- Decode one shipment row. -/
def decodeShipRow (j : Json) : Except String ShipRow := do
  let sid ← asIntE (← getKeyE j "ShipmentID")
  let name ← getKeyE j "ShipmentName"
  let status ← asStrE (← getKeyE j "Status")
  let loc ← asStrE (← getKeyE j "CurrentLocation")
  let sd ← getKeyE j "ShipmentDate"
  let dd ← getKeyE j "DeliveryDate"
  pure ⟨sid, name, status, loc, sd, dd⟩

/-- Decode the `shipments` payload into rows. -/
def decodeShipRows (j : Json) : Except String (List ShipRow) := do
  (← asArrE j).mapM decodeShipRow

/-- A recent-shipment row of the dashboard summary. -/
structure RecentRow where
  ShipmentName : Json
  ShipmentID : Json
  CustomerName : Json
  ParcelName : Json
  Status : String
  CurrentLocation : Json

/-- Decode one recent-shipment row of the dashboard summary. -/
def decodeRecentRow (j : Json) : Except String RecentRow := do
  let name ← getKeyE j "ShipmentName"
  let sid ← getKeyE j "ShipmentID"
  let cname ← getKeyE j "CustomerName"
  let pname ← getKeyE j "ParcelName"
  let status ← asStrE (← getKeyE j "Status")
  let loc ← getKeyE j "CurrentLocation"
  pure ⟨name, sid, cname, pname, status, loc⟩

/-- A parcel row of the Parcels page table (the id is compared with
`int(selected_parcel_id)`, the rest is display-only). -/
structure ParcelRow where
  ParcelID : Int
  ParcelName : Json
  CustomerID : Json
  Weight : Json
  Ptype : Json
  ShippingMethod : Json

/-- Decode one parcel row. -/
def decodeParcelRow (j : Json) : Except String ParcelRow := do
  let pid ← asIntE (← getKeyE j "ParcelID")
  let name ← getKeyE j "ParcelName"
  let cid ← getKeyE j "CustomerID"
  let w ← getKeyE j "Weight"
  let ty ← getKeyE j "Type"
  let sm ← getKeyE j "ShippingMethod"
  pure ⟨pid, name, cid, w, ty, sm⟩

/-- Decode the `parcels` payload into rows. -/
def decodeParcelRows (j : Json) : Except String (List ParcelRow) := do
  (← asArrE j).mapM decodeParcelRow

/-- The date label of the day `d`, counted in days (source line 726 renders
`(datetime.now() - timedelta(days=i)).strftime('%Y-%m-%d')`; the calendar
formatting is modelled by the decimal rendering of the day count, which is
injective on days — all the claims need). -/
def dayLabel (d : Int) : String :=
  toString d

/-- The `dates` list of the Analytics trends (source line 726): the 30 days
before `now` (today's day count), oldest first. -/
def trendDates (now : Int) : List String :=
  (List.range 30).map (fun k => dayLabel (now - 30 + k))

/-- An element of the rendered page content: cards, boxes, tables and the
data handed to the charting layer (figure styling is cosmetic and not
modelled). -/
inductive UIElem where
  | headerHtml (s : String) : UIElem
  | metricCard (label : String) (value : Json) : UIElem
  | metricRat (label : String) (value : Rat) : UIElem
  | pieChart (entries : List (String × Json)) : UIElem
  | barChart (entries : List (String × Json)) : UIElem
  | gauge (value : Rat) : UIElem
  | lineChart (title : String) (dates : List String) (points : List Rat) : UIElem
  | cardText (lines : List String) : UIElem
  | tableRow (cells : List String) : UIElem
  | mapPoint (sid : Int) (name : String) (status : String) (loc : String)
      (lat lon : Rat) (color : String) : UIElem
  | selectboxOptions (label : String) (options : List String) : UIElem
  | errorBox (s : String) : UIElem
  | infoBox (s : String) : UIElem
  | successBox (s : String) : UIElem
  | warningBox (s : String) : UIElem

/-- The backend collaborator: outcome of every GET (endpoint and query
parameters), PUT and POST the render may issue. -/
structure Backend where
  get : String → List (String × Json) → HttpOutcome
  put : String → Json → HttpOutcome
  post : String → Json → HttpOutcome

/-- The random draws available to one render: `choice i` is the table index
drawn for the i-th shipment row's location fallback, `noise i` the i-th
`np.random.normal` draw of the Analytics trends (draws 0-29: efficiency,
30-59: rating, 60-89: on-time). -/
structure Rng where
  choice : Nat → Nat
  noise : Nat → Rat

/-- The `st.session_state` fields used by the source (lines 131-134):
initialised to `None`, written by the Customers page, never read by any
render branch. -/
structure SessionState where
  customer_filter : Option Int
  status_filter : Option String
deriving DecidableEq

/-- The widget values (filters, selections, form submissions) of one
render. -/
structure Inputs where
  customersFilterName : String
  customersFilterType : String
  customersViewClicked : Option Int
  customersNewSubmit : Option Customer
  parcelsCustomerChoice : String
  parcelsDetailChoice : String
  shipmentsStatusChoice : String
  shipmentsCustomerChoice : String
  shipmentsUpdateSubmit : Option (Int × String)

/-- `fetch_data` against the modelled backend. -/
def fetchJ (be : Backend) (endpoint : String) (params : List (String × Json)) :
    FetchResult :=
  fetch_data (be.get endpoint params) endpoint

/-- The message boxes displayed for one form submission's effects. -/
def effectElems (e : FormEffects) : List UIElem :=
  e.errors.map UIElem.errorBox ++ e.warnings.map UIElem.warningBox
    ++ e.successes.map UIElem.successBox

/-- The dropdown label `f"(Name) (ID: (CustomerID))"` of a customer. -/
def customerLabel (c : Customer) : String :=
  c.Name ++ " (ID: " ++ toString c.CustomerID ++ ")"

/-- `int(selected.split("ID: ")[1].strip(")"))` on a selected label. -/
def parseLabelS (s : String) : Option Int :=
  parseLabel s.data

/-- Plain `int(s)` on a string (the parcel-detail selection). -/
def parseIntS (s : String) : Option Int :=
  pyInt s.data

/-- `color_mapping.get(status, 'gray')` of the Shipments map (source lines
512-520). -/
def statusColor (s : String) : String :=
  if s = "Processing" then "black"
  else if s = "In Transit" then "orange"
  else if s = "Delivered" then "green"
  else if s = "Delayed" then "red"
  else "gray"

/-- The card rendered for one recent shipment on the dashboard (source
lines 247-258). -/
def recentCard (r : RecentRow) : UIElem :=
  UIElem.cardText
    ["Shipment: " ++ r.ShipmentName.display ++ " (ID: " ++ r.ShipmentID.display ++ ")",
     "Customer: " ++ r.CustomerName.display,
     "Parcel: " ++ r.ParcelName.display,
     "Status: " ++ format_status r.Status,
     "Location: " ++ r.CurrentLocation.display]

/-- The Dashboard page (source lines 137-260): summary metrics, status pie,
efficiency gauge and recent-shipment cards, all from `dashboard/summary`;
a falsy fetch result renders nothing beyond the header and the error
message. -/
def renderDashboard (be : Backend) : Except String (List UIElem) := do
  let r := fetchJ be "dashboard/summary" []
  let head := UIElem.headerHtml "DHL Logistics Dashboard" :: r.errors.map UIElem.errorBox
  if pyTruthyOpt r.result then do
    let d := r.result.getD .null
    let onTime ← asRatE (d.getKeyD "on_time_percentage" (.num 0))
    let metrics :=
      [UIElem.metricCard "Total Customers" (d.getKeyD "total_customers" (.num 0)),
       UIElem.metricCard "Total Parcels" (d.getKeyD "total_parcels" (.num 0)),
       UIElem.metricCard "Total Shipments" (d.getKeyD "total_shipments" (.num 0)),
       UIElem.metricRat "On-Time Delivery" onTime]
    let statusData := d.getKeyD "status_breakdown" (.obj [])
    let pieElems ←
      if statusData.truthy then
        match statusData with
        | .obj fs => pure [UIElem.pieChart fs]
        | _ => Except.error "AttributeError"
      else pure [UIElem.infoBox "No status data available"]
    let eff ← asRatE (d.getKeyD "efficiency" (.num 0))
    let recents := d.getKeyD "recent_shipments" (.arr [])
    let recentElems ←
      if recents.truthy then do
        let rows ← (← asArrE recents).mapM decodeRecentRow
        pure (rows.map recentCard)
      else pure [UIElem.infoBox "No recent shipments to display"]
    pure (head ++ metrics ++ pieElems ++ [UIElem.gauge eff] ++ recentElems)
  else pure head

/-- The card rendered for one customer row (source lines 292-303). -/
def customerCard (c : Customer) : UIElem :=
  UIElem.cardText
    [c.Name ++ " (ID: " ++ toString c.CustomerID ++ ")",
     "Type: " ++ c.Type',
     "Email: " ++ c.Email,
     "Phone: " ++ c.Phone,
     "Address: " ++ c.Address]

/-- Customer-list tab of the Customers page (source lines 268-313): fetch,
type-option computation (`list(set(...))`: hash-dependent but deterministic
within one process, modelled as first-occurrence order), client-side
filtering, cards, and the detail fetch of a clicked View Details button
(only buttons of displayed rows exist). -/
def renderCustomersT1 (inp : Inputs) (be : Backend) : Except String (List UIElem) := do
  let cr := fetchJ be "customers" [("limit", .num 100)]
  let head := cr.errors.map UIElem.errorBox
  if pyTruthyOpt cr.result then do
    let custs ← decodeCustomers (cr.result.getD .null)
    let types := (custs.map (fun c => c.Type')).eraseDups
    let selE := [UIElem.selectboxOptions "Filter by Type" ("All" :: types)]
    let fd := filterCustomers custs inp.customersFilterName inp.customersFilterType
    let listE :=
      if fd.isEmpty then [UIElem.infoBox "No customers found with the selected filters"]
      else fd.map customerCard
    let clickE :=
      match inp.customersViewClicked with
      | some cid =>
          if fd.any (fun c => c.CustomerID == cid) then
            (fetchJ be ("customers/" ++ toString cid) []).errors.map UIElem.errorBox
          else []
      | none => []
    pure (head ++ selE ++ listE ++ clickE)
  else pure (head ++ [UIElem.errorBox "Failed to load customer data"])

/-- Session-state update of the Customers page (source lines 305-309): a
clicked View Details button whose detail fetch returns a truthy value
writes `st.session_state.customer_filter`; nothing else writes session
state. -/
def customersStateUpdate (inp : Inputs) (be : Backend) (ss : SessionState) :
    SessionState :=
  match inp.customersViewClicked with
  | some cid =>
      let cr := fetchJ be "customers" [("limit", .num 100)]
      if pyTruthyOpt cr.result then
        match decodeCustomers (cr.result.getD .null) with
        | .ok custs =>
            let fd := filterCustomers custs inp.customersFilterName inp.customersFilterType
            if fd.any (fun c => c.CustomerID == cid)
                ∧ pyTruthyOpt (fetchJ be ("customers/" ++ toString cid) []).result then
              { ss with customer_filter := some cid }
            else ss
        | .error _ => ss
      else ss
  | none => ss

/-- The Customers page (source lines 263-340): the list tab, the Add
Customer form tab, and the session-state write.  The rendered content is
computed without reading the incoming session state. -/
def renderCustomers (inp : Inputs) (be : Backend) (ss : SessionState) :
    Except String (List UIElem) × SessionState :=
  let t2 :=
    match inp.customersNewSubmit with
    | some nc => effectElems (submitNewCustomer be.post nc)
    | none => []
  (do
    let t1 ← renderCustomersT1 inp be
    pure (UIElem.headerHtml "Customer Management" :: t1 ++ t2),
   customersStateUpdate inp be ss)

/-- The card rendered for one shipment associated with a parcel (source
lines 410-421) and for one shipment row of the Shipments list (source
lines 547-558). -/
def shipCard (r : ShipRow) : UIElem :=
  UIElem.cardText
    ["Shipment: " ++ r.ShipmentName.display ++ " (ID: " ++ toString r.ShipmentID ++ ")",
     "Status: " ++ format_status r.Status,
     "Current Location: " ++ r.CurrentLocation,
     "Shipping Date: " ++ r.ShipmentDate.display,
     "Delivery Date: " ++ r.DeliveryDate.display]

/-- The table row rendered for one parcel (source lines 364-375). -/
def parcelTableRow (p : ParcelRow) : UIElem :=
  UIElem.tableRow
    [toString p.ParcelID, p.ParcelName.display, p.CustomerID.display,
     p.Weight.display, p.Ptype.display, p.ShippingMethod.display]

/-- Detail section of the Parcels page (source lines 383-423): fetch the
selected parcel, show its fields, fetch all shipments and show the ones
whose `ParcelID` equals the selected id. -/
def renderParcelDetail (be : Backend) (choice : String) : Except String (List UIElem) := do
  match parseIntS choice with
  | none => Except.error "ValueError"
  | some pid => do
    let dr := fetchJ be ("parcels/" ++ choice) []
    let head := dr.errors.map UIElem.errorBox
    if pyTruthyOpt dr.result then do
      let d := dr.result.getD .null
      let fields :=
        [UIElem.cardText
          ["Parcel Name: " ++ (← getKeyE d "ParcelName").display,
           "Customer ID: " ++ (← getKeyE d "CustomerID").display,
           "Type: " ++ (← getKeyE d "Type").display,
           "Weight: " ++ (← getKeyE d "Weight").display ++ " kg",
           "Shipping Method: " ++ (← getKeyE d "ShippingMethod").display]]
      let sr := fetchJ be "shipments" [("limit", .num 100)]
      let sErrs := sr.errors.map UIElem.errorBox
      if pyTruthyOpt sr.result then do
        let rows ← (← asArrE (sr.result.getD .null)).mapM (fun j => do
          let parcelId ← asIntE (← getKeyE j "ParcelID")
          let row ← decodeShipRow j
          pure (parcelId, row))
        let mine := rows.filter (fun pr => pr.1 == pid)
        let shipsE :=
          if mine.isEmpty then [UIElem.infoBox "No shipments found for this parcel"]
          else mine.map (fun pr => shipCard pr.2)
        pure (head ++ fields ++ sErrs ++ shipsE)
      else pure (head ++ fields ++ sErrs)
    else pure head

/-- The Parcels page (source lines 343-425): fetch parcels, fetch customers
for the filter, refetch parcels with `customer_id` when a customer label is
selected, render the table and the optional detail section. -/
def renderParcels (inp : Inputs) (be : Backend) : Except String (List UIElem) := do
  let p0 := fetchJ be "parcels" [("limit", .num 100)]
  let cr := fetchJ be "customers" [("limit", .num 100)]
  let head := UIElem.headerHtml "Parcel Management" :: p0.errors.map UIElem.errorBox
    ++ cr.errors.map UIElem.errorBox
  let custPart ←
    if pyTruthyOpt cr.result then do
      let custs ← decodeCustomers (cr.result.getD .null)
      let options := "All" :: custs.map customerLabel
      let selE := [UIElem.selectboxOptions "Filter by Customer" options]
      if inp.parcelsCustomerChoice ≠ "All" then
        match parseLabelS inp.parcelsCustomerChoice with
        | none => Except.error "ValueError"
        | some cid =>
            pure (selE,
              fetchJ be "parcels" [("customer_id", .num (cid : Rat)), ("limit", .num 100)])
      else pure (selE, p0)
    else pure ([], p0)
  let parcels := custPart.2
  let refetchErrs := (if pyTruthyOpt cr.result ∧ inp.parcelsCustomerChoice ≠ "All"
    then parcels.errors.map UIElem.errorBox else [])
  if pyTruthyOpt parcels.result then do
    let rows ← decodeParcelRows (parcels.result.getD .null)
    let tableE := rows.map parcelTableRow
    let detailOptions := "None" :: rows.map (fun p => toString p.ParcelID)
    let detailSelE := [UIElem.selectboxOptions "Select Parcel for Details" detailOptions]
    let detailE ←
      if inp.parcelsDetailChoice ≠ "None" then
        renderParcelDetail be inp.parcelsDetailChoice
      else pure []
    pure (head ++ custPart.1 ++ refetchErrs ++ tableE ++ detailSelE ++ detailE)
  else
    pure (head ++ custPart.1 ++ refetchErrs ++ [UIElem.errorBox "Failed to load parcel data"])

/-- The Shipments page (source lines 428-579): status and customer filters,
a filtered fetch, the location map with the random fallback, the shipment
cards and the per-row status-update form.  When the customers fetch is
falsy, `selected_customer` is never assigned and line 451 raises
`NameError`. -/
def renderShipments (inp : Inputs) (be : Backend) (rng : Rng) :
    Except String (List UIElem) := do
  let head := [UIElem.headerHtml "Shipment Tracking",
               UIElem.selectboxOptions "Filter by Status"
                 ["All", "Processing", "In Transit", "Delivered", "Delayed"]]
  let cr := fetchJ be "customers" [("limit", .num 100)]
  let crElems := cr.errors.map UIElem.errorBox
  if pyTruthyOpt cr.result then do
    let custs ← decodeCustomers (cr.result.getD .null)
    let selE := [UIElem.selectboxOptions "Filter by Customer"
                  ("All" :: custs.map customerLabel)]
    let statusParams : List (String × Json) :=
      if inp.shipmentsStatusChoice ≠ "All"
        then [("status", .str inp.shipmentsStatusChoice)] else []
    let custParams ←
      if inp.shipmentsCustomerChoice ≠ "All" then
        match parseLabelS inp.shipmentsCustomerChoice with
        | none => Except.error "ValueError"
        | some cid => pure [("customer_id", Json.num (cid : Rat))]
      else pure []
    let sr := fetchJ be "shipments" ([("limit", Json.num 100)] ++ statusParams ++ custParams)
    let srErrs := sr.errors.map UIElem.errorBox
    if pyTruthyOpt sr.result then do
      let rows ← decodeShipRows (sr.result.getD .null)
      let mapE := rows.enum.map (fun ri =>
        let coord := mapPlacement (rng.choice ri.1) ri.2.CurrentLocation
        UIElem.mapPoint ri.2.ShipmentID ri.2.ShipmentName.display ri.2.Status
          ri.2.CurrentLocation coord.1 coord.2 (statusColor ri.2.Status))
      let cardsE := rows.map shipCard
      let formE :=
        match inp.shipmentsUpdateSubmit with
        | some su =>
            if rows.any (fun r => r.ShipmentID == su.1) then
              effectElems (submitStatusUpdate be.put su.1 su.2)
            else []
        | none => []
      pure (head ++ crElems ++ selE ++ srErrs ++ mapE ++ cardsE ++ formE)
    else pure (head ++ crElems ++ selE ++ srErrs
                ++ [UIElem.errorBox "Failed to load shipment data"])
  else Except.error "NameError"

/-- The Analytics page (source lines 675-811): three fetches, KPI metric
cards, three synthetic 30-day trend series built from the current KPI
values and the noise draws and plotted against the `datetime.now()`-derived
date axis (`now` is today's day count), and the optional insight charts. -/
def renderAnalytics (be : Backend) (rng : Rng) (now : Int) :
    Except String (List UIElem) := do
  let k := fetchJ be "analytics/kpi" []
  let a := fetchJ be "analytics" [("limit", .num 100)]
  let ci := fetchJ be "dashboard/customer-insights" []
  let head := UIElem.headerHtml "Analytics & KPIs"
    :: (k.errors ++ a.errors ++ ci.errors).map UIElem.errorBox
  if pyTruthyOpt k.result ∧ pyTruthyOpt a.result ∧ pyTruthyOpt ci.result then do
    let kd := k.result.getD .null
    let ad := a.result.getD .null
    let cid := ci.result.getD .null
    let avgEff ← asRatE (kd.getKeyD "avg_efficiency" (.num 0))
    let avgRating ← asRatE (kd.getKeyD "avg_customer_rating" (.num 0))
    let onTime ← asRatE (kd.getKeyD "on_time_percentage" (.num 0))
    let metrics := [UIElem.metricRat "Average Efficiency" avgEff,
                    UIElem.metricRat "Customer Satisfaction" avgRating,
                    UIElem.metricRat "On-Time Delivery" onTime]
    let baseEff ← asRatE (kd.getKeyD "avg_efficiency" (.num 75))
    let baseRating ← asRatE (kd.getKeyD "avg_customer_rating" (.num 4))
    let baseOntime ← asRatE (kd.getKeyD "on_time_percentage" (.num 85))
    let trends :=
      [UIElem.lineChart "Efficiency Score Trend" (trendDates now)
         (efficiency_data baseEff rng.noise),
       UIElem.lineChart "Customer Satisfaction Trend" (trendDates now)
         (rating_data baseRating (fun i => rng.noise (30 + i))),
       UIElem.lineChart "On-Time Delivery Trend" (trendDates now)
         (ontime_data baseOntime (fun i => rng.noise (60 + i)))]
    let distE ←
      if cid.hasKey "customer_distribution" then
        match cid.getKeyD "customer_distribution" .null with
        | .obj fs => pure [UIElem.barChart fs]
        | _ => Except.error "AttributeError"
      else pure []
    let methodsE ←
      if ad.hasKey "shipping_methods" then
        match ad.getKeyD "shipping_methods" .null with
        | .obj fs => pure [UIElem.pieChart fs]
        | _ => Except.error "AttributeError"
      else pure []
    pure (head ++ metrics ++ trends ++ distE ++ methodsE)
  else pure (head ++ [UIElem.errorBox "Failed to load analytics data"])

/-- The options of the sidebar navigation radio (source lines 121-124). -/
def navOptions : List String :=
  ["Dashboard", "Shipments", "Customers", "Parcels", "Analytics"]

/-- The render branch selected by the `if page == ... / elif ...` chain
(source lines 137, 263, 343, 428, 582, 675, 814), in source order; a value
matching no branch renders nothing. -/
inductive PageBranch where
  | dashboard : PageBranch
  | customers : PageBranch
  | parcels : PageBranch
  | shipments : PageBranch
  | personnel : PageBranch
  | analytics : PageBranch
  | network : PageBranch
  | nopage : PageBranch
deriving DecidableEq

/-- Dispatch a navigation value to its render branch. -/
def dispatchPage (page : String) : PageBranch :=
  if page = "Dashboard" then .dashboard
  else if page = "Customers" then .customers
  else if page = "Parcels" then .parcels
  else if page = "Shipments" then .shipments
  else if page = "Personnel" then .personnel
  else if page = "Analytics" then .analytics
  else if page = "Network Visualization" then .network
  else .nopage

/-- One full render of the app for a navigation value: the produced page
content (`Except.error` models an uncaught Python exception) and the
session state after the render.  `now` is the current day count feeding the
Analytics date axis (`datetime.now()`).  The Personnel and Network
Visualization branches are unreachable from `navOptions` (claim C8) and no
claim concerns their content, so they are represented by their headers
only. -/
def render (page : String) (inp : Inputs) (be : Backend) (rng : Rng)
    (now : Int) (ss : SessionState) : Except String (List UIElem) × SessionState :=
  match dispatchPage page with
  | .dashboard => (renderDashboard be, ss)
  | .customers => renderCustomers inp be ss
  | .parcels => (renderParcels inp be, ss)
  | .shipments => (renderShipments inp be rng, ss)
  | .personnel => (.ok [UIElem.headerHtml "Personnel Management"], ss)
  | .analytics => (renderAnalytics be rng now, ss)
  | .network => (.ok [UIElem.headerHtml "Logistics Network"], ss)
  | .nopage => (.ok [], ss)

/-- The date lists of every trend chart of a rendered page, in order (used
to observe the date dependence of the Analytics render). -/
def trendDatesOf : Except String (List UIElem) → List (List String)
  | .error _ => []
  | .ok elems =>
      elems.filterMap (fun e =>
        match e with
        | .lineChart _ dates _ => some dates
        | _ => none)

/-- A concrete backend whose every GET returns a 200 response with a truthy
JSON object (enough for the Analytics branch to render its trends). -/
def backend0 : Backend :=
  ⟨fun _ _ => .response 200 (.obj [("k", .num 1)]),
   fun _ _ => .response 200 .null,
   fun _ _ => .response 200 .null⟩

/-- Concrete widget inputs: every filter at its default, nothing
submitted. -/
def inputs0 : Inputs :=
  ⟨"", "All", none, none, "All", "None", "All", "All", none⟩

/-- Concrete random draws: index 0 and zero noise. -/
def rng0 : Rng :=
  ⟨fun _ => 0, fun _ => 0⟩

/-- The initial session state (both fields `None`). -/
def sstate0 : SessionState :=
  ⟨none, none⟩

theorem clampSeries_bounds (base lo hi : Rat) (noise : Nat → Rat) (h : lo ≤ hi) :
    (clampSeries base lo hi noise).length = 30
      ∧ ∀ x ∈ clampSeries base lo hi noise, lo ≤ x ∧ x ≤ hi := by
  constructor
  · simp [clampSeries]
  · intro x hx
    simp only [clampSeries, List.mem_map] at hx
    obtain ⟨i, _, rfl⟩ := hx
    exact ⟨le_max_right _ _, max_le (min_le_right _ _) h⟩

/-- C1 counterexample: a final 300 Multiple Choices response without a
Location header is not followed by the redirect machinery and may carry a
JSON body; 300 is not 2xx, yet `raise_for_status` raises only for 4xx/5xx,
so `fetch_data` returns the parsed body, with no error notification,
instead of the `null` the claim requires. -/
theorem C1_non2xx_counterexample :
    is2xx 300 = false
      ∧ (fetch_data (.response 300 (.obj [("alternates", .arr [])])) "customers").result
          = some (.obj [("alternates", .arr [])])
      ∧ (fetch_data (.response 300 (.obj [("alternates", .arr [])])) "customers").errors = [] :=
  ⟨rfl, rfl, rfl⟩

/-- C1 (amended): `fetch_data` returns the parsed JSON body unchanged, with
no error message, for every response whose status does not make
`raise_for_status` raise (that is, every status outside 4xx/5xx — all 2xx
in particular) and whose body parses as JSON; for a 4xx/5xx response, a
body that fails to parse as JSON (such as the empty body the HTTP stack
forces for a 304), or a transport error, it returns `none` and displays
exactly one error message that contains the requested endpoint path. -/
theorem C1_fetch_data_contract (endpoint e : String) (status : Nat) (body : Json) :
    (raisesForStatus status = false →
        fetch_data (.response status body) endpoint = ⟨some body, []⟩)
  ∧ (raisesForStatus status = true →
        (fetch_data (.response status body) endpoint).result = none
          ∧ ∃ pre post,
              (fetch_data (.response status body) endpoint).errors
                = [pre ++ endpoint ++ post])
  ∧ ((fetch_data (.badJson status e) endpoint).result = none
        ∧ ∃ pre post,
            (fetch_data (.badJson status e) endpoint).errors
              = [pre ++ endpoint ++ post])
  ∧ ((fetch_data (.transportError e) endpoint).result = none
        ∧ ∃ pre post,
            (fetch_data (.transportError e) endpoint).errors
              = [pre ++ endpoint ++ post]) := by
  refine ⟨fun h => ?_, fun h => ⟨?_, ?_⟩, ⟨?_, ?_⟩, ?_, ?_⟩
  · simp [fetch_data, h]
  · simp [fetch_data, h]
  · refine ⟨"Error fetching data from ", ": " ++ httpErrorText status endpoint, ?_⟩
    simp [fetch_data, h, String.append_assoc]
  · by_cases h : raisesForStatus status <;> simp [fetch_data, h]
  · by_cases h : raisesForStatus status
    · refine ⟨"Error fetching data from ", ": " ++ httpErrorText status endpoint, ?_⟩
      simp [fetch_data, h, String.append_assoc]
    · exact ⟨"Error fetching data from ", ": " ++ e,
        by simp [fetch_data, h, String.append_assoc]⟩
  · simp [fetch_data]
  · exact ⟨"Error fetching data from ", ": " ++ e, by simp [fetch_data, String.append_assoc]⟩

theorem C1_witness :
    raisesForStatus 200 = false
      ∧ fetch_data (.response 200 (.str "ok")) "customers" = ⟨some (.str "ok"), []⟩ :=
  ⟨rfl, (C1_fetch_data_contract "customers" "" 200 (.str "ok")).1 rfl⟩

/-- C2: a status string whose lowercased, space-stripped form is
`delivered`, `intransit`/`in-transit`, `processing` or `delayed` is wrapped
in the span carrying the corresponding fixed CSS style; every other string
is returned unchanged. -/
theorem C2_format_status_cases (s : String) :
    (normalizeStatus s = "delivered" → format_status s = spanWrap "status-delivered" s)
  ∧ ((normalizeStatus s = "intransit" ∨ normalizeStatus s = "in-transit") →
        format_status s = spanWrap "status-intransit" s)
  ∧ (normalizeStatus s = "processing" → format_status s = spanWrap "status-processing" s)
  ∧ (normalizeStatus s = "delayed" → format_status s = spanWrap "status-delayed" s)
  ∧ (normalizeStatus s ∉ ["delivered", "intransit", "in-transit", "processing", "delayed"] →
        format_status s = s) := by
  refine ⟨fun h => ?_, fun h => ?_, fun h => ?_, fun h => ?_, fun h => ?_⟩
  · simp [format_status, h]
  · rcases h with h | h <;> simp [format_status, h]
  · simp [format_status, h]
  · simp [format_status, h]
  · simp only [List.mem_cons, List.mem_singleton, not_or] at h
    obtain ⟨h1, h2, h3, h4, h5⟩ := h
    simp [format_status, h1, h2, h3, h4, h5]

theorem C2_witness :
    format_status "Lost" = "Lost" ∧ format_status "In Transit" = spanWrap "status-intransit" "In Transit" :=
  ⟨(C2_format_status_cases "Lost").2.2.2.2 (by decide),
   (C2_format_status_cases "In Transit").2.1 (Or.inl (by decide))⟩

/-- C3 counterexample: a 2xx PUT response whose JSON body is the empty
object (falsy in Python) does not trigger `st.rerun()`, although the claim
requires a reload for every 2xx response. -/
theorem C3_truthy_counterexample :
    is2xx 200 = true
      ∧ (submitStatusUpdate (fun _ _ => .response 200 (.obj [])) 7 "Delivered").reran = false :=
  ⟨rfl, rfl⟩

/-- C3 (amended): submitting the per-shipment form issues exactly one PUT
to `shipments/(id)/status` with body `(("Status", new value))`; the view is
reloaded exactly when the PUT does not fail (no transport error, status
outside 4xx/5xx) and its parsed body is truthy (`if result:`); on a failed
PUT no reload occurs. -/
theorem C3_status_update_contract (put : String → Json → HttpOutcome) (sid : Int)
    (ns : String) :
    (submitStatusUpdate put sid ns).puts
        = [(statusEndpoint sid, Json.obj [("Status", .str ns)])]
  ∧ (∀ status body,
        put (statusEndpoint sid) (Json.obj [("Status", .str ns)]) = .response status body →
        raisesForStatus status = false →
        (submitStatusUpdate put sid ns).reran = body.truthy)
  ∧ (∀ status body,
        put (statusEndpoint sid) (Json.obj [("Status", .str ns)]) = .response status body →
        raisesForStatus status = true →
        (submitStatusUpdate put sid ns).reran = false)
  ∧ (∀ status e,
        put (statusEndpoint sid) (Json.obj [("Status", .str ns)]) = .badJson status e →
        (submitStatusUpdate put sid ns).reran = false)
  ∧ (∀ e, put (statusEndpoint sid) (Json.obj [("Status", .str ns)]) = .transportError e →
        (submitStatusUpdate put sid ns).reran = false) := by
  refine ⟨rfl, fun status body hput hrs => ?_, fun status body hput hrs => ?_,
    fun status e hput => ?_, fun e hput => ?_⟩
  · simp [submitStatusUpdate, update_data, hput, hrs, pyTruthyOpt]
  · simp [submitStatusUpdate, update_data, hput, hrs, pyTruthyOpt]
  · by_cases hrs : raisesForStatus status <;>
      simp [submitStatusUpdate, update_data, hput, hrs, pyTruthyOpt]
  · simp [submitStatusUpdate, update_data, hput, pyTruthyOpt]

theorem C3_witness :
    (submitStatusUpdate (fun _ _ => .response 200 (.bool true)) 3 "Delivered").reran = true := by
  have h := (C3_status_update_contract (fun _ _ => .response 200 (.bool true)) 3
    "Delivered").2.1 200 (.bool true) rfl rfl
  simpa [Json.truthy] using h

/-- C5: placing a shipment row on the map is total and always yields a
coordinate pair of the fixed city table — the table entry of the reported
location when it is a key, else the entry selected by the random draw —
and never the null coordinate (0, 0). -/
theorem C5_map_placement (r : Nat) (loc : String) :
    mapPlacement r loc ∈ cityTable.map (fun e => e.2)
  ∧ (∀ c, lookupCity loc = some c → mapPlacement r loc = c)
  ∧ (lookupCity loc = none → mapPlacement r loc = fallbackCoord r)
  ∧ mapPlacement r loc ≠ ((0 : Rat), (0 : Rat)) := by
  have hmem : mapPlacement r loc ∈ cityTable.map (fun e => e.2) := by
    unfold mapPlacement
    cases hl : lookupCity loc with
    | some c =>
        unfold lookupCity at hl
        obtain ⟨e, he, rfl⟩ := Option.map_eq_some'.mp hl
        exact List.mem_map.mpr ⟨e, List.mem_of_find?_eq_some he, rfl⟩
    | none =>
        exact List.mem_map.mpr ⟨_, List.get_mem cityTable _ _, rfl⟩
  refine ⟨hmem, fun c hc => ?_, fun hn => ?_, ?_⟩
  · simp [mapPlacement, hc]
  · simp [mapPlacement, hn]
  · have hall : ∀ p ∈ cityTable.map (fun e => e.2), p ≠ ((0 : Rat), (0 : Rat)) := by
      intro p hp
      fin_cases hp <;> (rw [Ne, Prod.mk.injEq]; norm_num)
    exact hall _ hmem

theorem C5_witness :
    mapPlacement 0 "Nowhereville" = fallbackCoord 0
      ∧ mapPlacement 0 "Chicago" = (41.8781, -87.6298) :=
  ⟨(C5_map_placement 0 "Nowhereville").2.2.1 rfl,
   (C5_map_placement 0 "Chicago").2.1 _ rfl⟩

/-- C6: each of the 30 points of every synthetic trend series stays within
its documented bounds — efficiency in [50, 100], customer rating in [1, 5],
on-time percentage in [70, 100] — for every base value and every sequence
of noise draws. -/
theorem C6_trend_bounds (base : Rat) (noise : Nat → Rat) :
    ((efficiency_data base noise).length = 30
       ∧ ∀ x ∈ efficiency_data base noise, 50 ≤ x ∧ x ≤ 100)
  ∧ ((rating_data base noise).length = 30
       ∧ ∀ x ∈ rating_data base noise, 1 ≤ x ∧ x ≤ 5)
  ∧ ((ontime_data base noise).length = 30
       ∧ ∀ x ∈ ontime_data base noise, 70 ≤ x ∧ x ≤ 100) :=
  ⟨clampSeries_bounds base 50 100 noise (by norm_num),
   clampSeries_bounds base 1 5 noise (by norm_num),
   clampSeries_bounds base 70 100 noise (by norm_num)⟩

theorem C6_witness :
    50 ≤ (75 : Rat) ∧ (75 : Rat) ≤ 100 :=
  (C6_trend_bounds 75 (fun _ => 0)).1.2 75 (by
    simp only [efficiency_data, clampSeries, List.mem_map, List.mem_range]
    exact ⟨0, by norm_num, by norm_num⟩)

/-- C8: the navigation radio offers exactly Dashboard, Shipments,
Customers, Parcels and Analytics; Personnel and Network Visualization are
not among them, and no navigation value dispatches to the Personnel or
Network Visualization branch — those branches are unreachable. -/
theorem C8_dead_branches :
    "Personnel" ∉ navOptions
  ∧ "Network Visualization" ∉ navOptions
  ∧ ∀ p ∈ navOptions,
      dispatchPage p ≠ PageBranch.personnel ∧ dispatchPage p ≠ PageBranch.network := by
  refine ⟨by decide, by decide, by decide⟩

theorem C8_witness :
    dispatchPage "Dashboard" ≠ PageBranch.personnel
      ∧ dispatchPage "Dashboard" ≠ PageBranch.network :=
  C8_dead_branches.2.2 "Dashboard" (by decide)

/-- C9: submitting the Add Customer form with an empty Name or an empty
Email issues no POST and displays the required-fields warning; when both
are non-empty it issues exactly one POST to `customers` with the entered
customer body. -/
theorem C9_add_customer_guard (post : String → Json → HttpOutcome) (c : Customer) :
    ((c.Name = "" ∨ c.Email = "") →
        (submitNewCustomer post c).posts = []
          ∧ (submitNewCustomer post c).warnings = ["Please fill in all required fields"])
  ∧ (c.Name ≠ "" → c.Email ≠ "" →
        (submitNewCustomer post c).posts = [("customers", customerJson c)]
          ∧ (submitNewCustomer post c).warnings = []) := by
  constructor
  · intro h
    have hne : ¬(c.Name ≠ "" ∧ c.Email ≠ "") := by tauto
    simp [submitNewCustomer, hne]
  · intro h1 h2
    simp [submitNewCustomer, h1, h2]

theorem C9_witness :
    (submitNewCustomer (fun _ _ => .response 200 .null)
        ⟨1, "", "a@example.com", "", "", "Individual"⟩).posts = []
      ∧ (submitNewCustomer (fun _ _ => .response 200 .null)
        ⟨1, "", "a@example.com", "", "", "Individual"⟩).warnings
          = ["Please fill in all required fields"] :=
  (C9_add_customer_guard (fun _ _ => .response 200 .null)
    ⟨1, "", "a@example.com", "", "", "Individual"⟩).1 (Or.inl rfl)

/-- C7 counterexample: the Analytics trend charts plot against a
`datetime.now()`-derived date axis (source line 726), so two executions on
different days with identical backend responses, identical widget inputs
and identical random draws produce different page content — the render is
not determined by responses, inputs and draws alone. -/
theorem C7_date_counterexample :
    trendDatesOf (render "Analytics" inputs0 backend0 rng0 0 sstate0).1
        ≠ trendDatesOf (render "Analytics" inputs0 backend0 rng0 1 sstate0).1
      ∧ (render "Analytics" inputs0 backend0 rng0 0 sstate0).1
        ≠ (render "Analytics" inputs0 backend0 rng0 1 sstate0).1 := by
  have h : trendDatesOf (render "Analytics" inputs0 backend0 rng0 0 sstate0).1
      ≠ trendDatesOf (render "Analytics" inputs0 backend0 rng0 1 sstate0).1 := by
    have h0 : trendDatesOf (render "Analytics" inputs0 backend0 rng0 0 sstate0).1
        = [trendDates 0, trendDates 0, trendDates 0] := rfl
    have h1 : trendDatesOf (render "Analytics" inputs0 backend0 rng0 1 sstate0).1
        = [trendDates 1, trendDates 1, trendDates 1] := rfl
    rw [h0, h1]
    decide
  exact ⟨h, fun he => h (congrArg trendDatesOf he)⟩

/-- C7 (amended): a render reads only the navigation value, the widget
inputs, the backend responses, the random draws and the current date —
never the incoming session state (the source writes `st.session_state` on
the Customers page but no branch reads it).  Hence any two executions of
the same view with identical backend responses, identical inputs,
identical random draws and the same current date produce identical page
content, and re-rendering after the first render's session-state write
reproduces the same content. -/
theorem C7_render_deterministic (page : String) (inp : Inputs) (be : Backend)
    (rng : Rng) (now : Int) (s1 s2 : SessionState) :
    (render page inp be rng now s1).1 = (render page inp be rng now s2).1 := by
  unfold render
  cases dispatchPage page <;> rfl

theorem isPreB_iff (needle : List Char) :
    ∀ hay, isPreB needle hay = true ↔ ∃ t, hay = needle ++ t := by
  induction needle with
  | nil => intro hay; simp [isPreB]
  | cons a as ih =>
    intro hay
    cases hay with
    | nil => simp [isPreB]
    | cons b bs =>
      simp only [isPreB, Bool.and_eq_true, beq_iff_eq, ih, List.cons_append,
        List.cons.injEq]
      constructor
      · rintro ⟨rfl, t, rfl⟩
        exact ⟨t, rfl, rfl⟩
      · rintro ⟨t, rfl, rfl⟩
        exact ⟨rfl, t, rfl⟩

theorem occursIn_cons (sep t : List Char) (c : Char) (h : occursIn sep t) :
    occursIn sep (c :: t) := by
  obtain ⟨x, y, rfl⟩ := h
  exact ⟨c :: x, y, rfl⟩

theorem occursB_iff (sep : List Char) :
    ∀ s, occursB sep s = true ↔ occursIn sep s := by
  intro s
  induction s with
  | nil =>
    rw [occursB]
    constructor
    · intro h
      rcases (by simpa using h : isPreB sep [] = true ∨ False) with h' | h'
      · obtain ⟨t, ht⟩ := (isPreB_iff sep []).mp h'
        exact ⟨[], t, by simpa using ht⟩
      · exact absurd h' (by simp)
    · rintro ⟨x, y, h⟩
      have h' := h.symm
      simp only [List.append_assoc, List.append_eq_nil] at h'
      obtain ⟨hx, hsep, hy⟩ := h'
      subst hsep
      simp [isPreB]
  | cons c cs ih =>
    rw [occursB]
    constructor
    · intro h
      rcases (by simpa using h :
          isPreB sep (c :: cs) = true ∨ occursB sep cs = true) with h' | h'
      · obtain ⟨t, ht⟩ := (isPreB_iff sep (c :: cs)).mp h'
        exact ⟨[], t, by simpa using ht⟩
      · exact occursIn_cons sep cs c (ih.mp h')
    · rintro ⟨x, y, h⟩
      cases x with
      | nil =>
        have : isPreB sep (c :: cs) = true :=
          (isPreB_iff sep (c :: cs)).mpr ⟨y, by simpa using h⟩
        simp [this]
      | cons d ds =>
        injection h with h1 h2
        have : occursB sep cs = true := ih.mpr ⟨ds, y, h2⟩
        simp [this]

theorem pySplitAux_fuel (sep : List Char) (hsep : sep ≠ []) :
    ∀ f1 f2 s, s.length ≤ f1 → s.length ≤ f2 →
      pySplitAux sep f1 s = pySplitAux sep f2 s := by
  intro f1
  induction f1 with
  | zero =>
    intro f2 s h1 _
    have hs : s = [] := List.length_eq_zero.mp (Nat.le_zero.mp h1)
    subst hs
    cases f2 with
    | zero => rfl
    | succ f2 =>
      obtain ⟨a, as, rfl⟩ := List.exists_cons_of_ne_nil hsep
      simp [pySplitAux, isPreB]
  | succ f1 ih =>
    intro f2 s h1 h2
    cases f2 with
    | zero =>
      have hs : s = [] := List.length_eq_zero.mp (Nat.le_zero.mp h2)
      subst hs
      obtain ⟨a, as, rfl⟩ := List.exists_cons_of_ne_nil hsep
      simp [pySplitAux, isPreB]
    | succ f2 =>
      simp only [pySplitAux]
      by_cases hc : sep ≠ [] ∧ isPreB sep s
      · rw [if_pos hc, if_pos hc]
        obtain ⟨t, rfl⟩ := (isPreB_iff sep s).mp hc.2
        rw [List.drop_left]
        have hsl : 1 ≤ sep.length := List.length_pos.mpr hsep
        simp only [List.length_append] at h1 h2
        rw [ih f2 t (by omega) (by omega)]
      · rw [if_neg hc, if_neg hc]
        cases s with
        | nil => rfl
        | cons c rest =>
          simp only [List.length_cons] at h1 h2
          show (match pySplitAux sep f1 rest with
                | [] => [[c]]
                | t :: ts => (c :: t) :: ts) =
              (match pySplitAux sep f2 rest with
                | [] => [[c]]
                | t :: ts => (c :: t) :: ts)
          rw [ih f2 rest (by omega) (by omega)]

theorem pySplitAux_no_occ (sep : List Char) (hsep : sep ≠ []) :
    ∀ fuel s, ¬ occursIn sep s → pySplitAux sep fuel s = [s] := by
  intro fuel
  induction fuel with
  | zero => intro s _; rfl
  | succ fuel ih =>
    intro s hno
    have hpre : isPreB sep s = false := by
      by_contra hx
      have hx' : isPreB sep s = true := by simpa using hx
      obtain ⟨t, rfl⟩ := (isPreB_iff sep s).mp hx'
      exact hno ⟨[], t, by simp⟩
    simp only [pySplitAux]
    rw [if_neg (by simp [hpre])]
    cases s with
    | nil => rfl
    | cons c rest =>
      have hrest : ¬ occursIn sep rest := fun h => hno (occursIn_cons sep rest c h)
      show (match pySplitAux sep fuel rest with
            | [] => [[c]]
            | t :: ts => (c :: t) :: ts) = [c :: rest]
      rw [ih rest hrest]

theorem snoc_inj {s t : List Char} {a b : Char} (h : s ++ [a] = t ++ [b]) :
    s = t ∧ a = b := by
  have h' := congrArg List.reverse h
  simp only [List.reverse_append, List.reverse_cons, List.reverse_nil,
    List.nil_append, List.singleton_append, List.cons.injEq] at h'
  exact ⟨by simpa using congrArg List.reverse h'.2, h'.1⟩

theorem occursIn_snoc (sep s : List Char) (c : Char) :
    occursIn sep (s ++ [c]) ↔ occursIn sep s ∨ ∃ x, s ++ [c] = x ++ sep := by
  constructor
  · rintro ⟨x, y, h⟩
    rcases List.eq_nil_or_concat y with rfl | ⟨y', c', rfl⟩
    · exact Or.inr ⟨x, by simpa using h⟩
    · have h' : s ++ [c] = (x ++ sep ++ y') ++ [c'] := by
        rw [h]; simp
      obtain ⟨hs, _⟩ := snoc_inj h'
      exact Or.inl ⟨x, y', hs⟩
  · rintro (⟨x, y, rfl⟩ | ⟨x, hx⟩)
    · exact ⟨x, y ++ [c], by simp⟩
    · exact ⟨x, [], by simpa using hx⟩

theorem pySplitAux_boundary (sep : List Char) (hsep : sep ≠ []) :
    ∀ a fuel b, (a ++ sep ++ b).length ≤ fuel →
      ¬ occursIn sep (a ++ sep).dropLast →
      pySplitAux sep fuel (a ++ sep ++ b) = a :: pySplitAux sep b.length b := by
  intro a
  induction a with
  | nil =>
    intro fuel b hlen _
    simp only [List.nil_append] at hlen ⊢
    have hsl : 1 ≤ sep.length := List.length_pos.mpr hsep
    cases fuel with
    | zero =>
      exfalso
      simp only [List.length_append] at hlen
      omega
    | succ fuel =>
      have hc : sep ≠ [] ∧ isPreB sep (sep ++ b) = true :=
        ⟨hsep, (isPreB_iff sep (sep ++ b)).mpr ⟨b, rfl⟩⟩
      simp only [pySplitAux]
      rw [if_pos hc, List.drop_left]
      simp only [List.length_append] at hlen
      rw [pySplitAux_fuel sep hsep fuel b.length b (by omega) le_rfl]
  | cons c a' ih =>
    intro fuel b hlen hocc
    have hsl : 1 ≤ sep.length := List.length_pos.mpr hsep
    cases fuel with
    | zero =>
      exfalso
      simp only [List.cons_append, List.length_cons] at hlen
      omega
    | succ fuel =>
      have hpre : isPreB sep ((c :: a') ++ sep ++ b) = false := by
        by_contra hx
        have hx' : isPreB sep ((c :: a') ++ sep ++ b) = true := by simpa using hx
        obtain ⟨t, ht⟩ := (isPreB_iff _ _).mp hx'
        apply hocc
        have hDlen : sep.length ≤ ((c :: a') ++ sep).dropLast.length := by
          rw [List.length_dropLast]
          simp only [List.cons_append, List.length_cons, List.length_append]
          omega
        have htake : ((c :: a') ++ sep).dropLast.take sep.length = sep := by
          rw [List.dropLast_eq_take, List.take_take]
          have hmin : min sep.length (((c :: a') ++ sep).length - 1) = sep.length := by
            simp only [List.cons_append, List.length_cons, List.length_append]
            omega
          rw [hmin]
          have h1 : ((c :: a') ++ sep ++ b).take sep.length = sep := by
            rw [ht]; exact List.take_left sep t
          have h2 : ((c :: a') ++ sep ++ b).take sep.length
              = ((c :: a') ++ sep).take sep.length :=
            List.take_append_of_le_length (by
              simp only [List.cons_append, List.length_cons, List.length_append]
              omega)
          rw [← h2, h1]
        refine ⟨[], ((c :: a') ++ sep).dropLast.drop sep.length, ?_⟩
        rw [List.nil_append]
        conv_lhs => rw [← List.take_append_drop sep.length ((c :: a') ++ sep).dropLast]
        rw [htake]
      have hocc' : ¬ occursIn sep (a' ++ sep).dropLast := by
        intro h
        apply hocc
        have hne : a' ++ sep ≠ [] := by
          intro hx
          exact hsep (List.append_eq_nil.mp hx).2
        have : ((c :: a') ++ sep).dropLast = c :: (a' ++ sep).dropLast := by
          rw [List.cons_append, List.dropLast_cons_of_ne_nil hne]
        rw [this]
        exact occursIn_cons _ _ _ h
      simp only [pySplitAux]
      rw [if_neg (fun hcontra => by
        rw [hpre] at hcontra
        exact Bool.false_ne_true hcontra.2)]
      have hstep : (c :: a') ++ sep ++ b = c :: (a' ++ sep ++ b) := by simp
      rw [hstep]
      show (match pySplitAux sep fuel (a' ++ sep ++ b) with
            | [] => [[c]]
            | t :: ts => (c :: t) :: ts) = (c :: a') :: pySplitAux sep b.length b
      have hlen' : (a' ++ sep ++ b).length ≤ fuel := by
        simp only [List.cons_append, List.length_cons] at hlen
        simpa using Nat.le_of_succ_le_succ hlen
      rw [ih fuel b hlen' hocc']

theorem pySplit_boundary (sep a b : List Char) (hsep : sep ≠ [])
    (hocc : ¬ occursIn sep (a ++ sep).dropLast) (hb : ¬ occursIn sep b) :
    pySplit sep (a ++ sep ++ b) = [a, b] := by
  rw [pySplit, pySplitAux_boundary sep hsep a _ b le_rfl hocc,
    pySplitAux_no_occ sep hsep b.length b hb]

theorem natDigitsAux_fuel :
    ∀ f1 f2 n acc, n ≤ f1 → n ≤ f2 → natDigitsAux f1 n acc = natDigitsAux f2 n acc := by
  intro f1
  induction f1 with
  | zero =>
    intro f2 n acc h1 _
    have hn : n = 0 := Nat.le_zero.mp h1
    subst hn
    cases f2 with
    | zero => rfl
    | succ f2 =>
      simp only [natDigitsAux]
      rw [if_pos (by omega)]
  | succ f1 ih =>
    intro f2 n acc h1 h2
    cases f2 with
    | zero =>
      have hn : n = 0 := Nat.le_zero.mp h2
      subst hn
      simp only [natDigitsAux]
      rw [if_pos (by omega)]
    | succ f2 =>
      simp only [natDigitsAux]
      by_cases hn : n < 10
      · rw [if_pos hn, if_pos hn]
      · rw [if_neg hn, if_neg hn]
        have h10 : n / 10 < n := Nat.div_lt_self (by omega) (by omega)
        exact ih f2 (n / 10) _ (by omega) (by omega)

theorem natDigitsAux_acc :
    ∀ fuel n acc, natDigitsAux fuel n acc = natDigitsAux fuel n [] ++ acc := by
  intro fuel
  induction fuel with
  | zero => intro n acc; simp [natDigitsAux]
  | succ fuel ih =>
    intro n acc
    simp only [natDigitsAux]
    by_cases hn : n < 10
    · rw [if_pos hn, if_pos hn]; simp
    · rw [if_neg hn, if_neg hn, ih (n / 10) (digitChar10 (n % 10) :: acc),
        ih (n / 10) [digitChar10 (n % 10)]]
      simp

theorem natDigits_lt10 (n : Nat) (h : n < 10) : natDigits n = [digitChar10 n] := by
  unfold natDigits
  cases n with
  | zero => rfl
  | succ m =>
    simp only [natDigitsAux]
    rw [if_pos h]

theorem natDigits_ge10 (n : Nat) (h : 10 ≤ n) :
    natDigits n = natDigits (n / 10) ++ [digitChar10 (n % 10)] := by
  unfold natDigits
  obtain ⟨m, rfl⟩ : ∃ m, n = m + 1 := ⟨n - 1, by omega⟩
  simp only [natDigitsAux]
  rw [if_neg (by omega), natDigitsAux_acc]
  congr 1
  exact natDigitsAux_fuel m ((m + 1) / 10) ((m + 1) / 10) []
    (by
      have : (m + 1) / 10 < m + 1 := Nat.div_lt_self (by omega) (by omega)
      omega)
    le_rfl

theorem isDigitC_digitChar10 (d : Nat) (h : d < 10) : isDigitC (digitChar10 d) = true := by
  interval_cases d <;> decide

theorem digitChar10_toNat (d : Nat) (h : d < 10) : (digitChar10 d).toNat = 48 + d := by
  interval_cases d <;> decide

theorem natDigits_digits (n : Nat) : ∀ c ∈ natDigits n, isDigitC c = true := by
  induction n using Nat.strong_induction_on with
  | _ n ih =>
    by_cases h : n < 10
    · rw [natDigits_lt10 n h]
      intro c hc
      simp only [List.mem_singleton] at hc
      subst hc
      exact isDigitC_digitChar10 n h
    · rw [natDigits_ge10 n (by omega)]
      intro c hc
      rcases List.mem_append.mp hc with hc | hc
      · exact ih (n / 10) (Nat.div_lt_self (by omega) (by omega)) c hc
      · simp only [List.mem_singleton] at hc
        subst hc
        exact isDigitC_digitChar10 _ (Nat.mod_lt n (by omega))

theorem natDigits_ne_nil (n : Nat) : natDigits n ≠ [] := by
  by_cases h : n < 10
  · rw [natDigits_lt10 n h]; simp
  · rw [natDigits_ge10 n (by omega)]; simp

theorem digitsVal_snoc (xs : List Char) (c : Char) :
    digitsVal (xs ++ [c]) = digitsVal xs * 10 + (c.toNat - 48) := by
  simp [digitsVal, List.foldl_append]

theorem digitsVal_natDigits (n : Nat) : digitsVal (natDigits n) = n := by
  induction n using Nat.strong_induction_on with
  | _ n ih =>
    by_cases h : n < 10
    · rw [natDigits_lt10 n h]
      simp [digitsVal, digitChar10_toNat n h]
    · rw [natDigits_ge10 n (by omega), digitsVal_snoc,
        ih (n / 10) (Nat.div_lt_self (by omega) (by omega)),
        digitChar10_toNat _ (Nat.mod_lt n (by omega))]
      omega

theorem digit_not_ws (c : Char) (h : isDigitC c = true) : c.isWhitespace = false := by
  simp only [isDigitC, Bool.and_eq_true, decide_eq_true_eq] at h
  by_contra hx
  have hw : c.isWhitespace = true := by simpa using hx
  have hcase : ((c = ' ' ∨ c = '\t') ∨ c = '\r') ∨ c = '\n' := by
    simpa [Char.isWhitespace, Bool.or_eq_true, decide_eq_true_eq] using hw
  rcases hcase with ((rfl | rfl) | rfl) | rfl <;> exact absurd h (by decide)

theorem digit_ne_chars (c : Char) (h : isDigitC c = true) :
    c ≠ '-' ∧ c ≠ '+' ∧ c ≠ 'I' ∧ (c == ')') = false := by
  simp only [isDigitC, Bool.and_eq_true, decide_eq_true_eq] at h
  refine ⟨?_, ?_, ?_, ?_⟩
  · rintro rfl; exact absurd h (by decide)
  · rintro rfl; exact absurd h (by decide)
  · rintro rfl; exact absurd h (by decide)
  · by_contra hx
    have : c = ')' := by simpa using hx
    subst this
    exact absurd h (by decide)

theorem dropWhile_all_false (p : Char → Bool) (l : List Char)
    (h : ∀ c ∈ l, p c = false) : l.dropWhile p = l := by
  cases l with
  | nil => rfl
  | cons c cs =>
    have hc : ¬ (p c = true) := by
      rw [h c (List.mem_cons_self c cs)]
      exact Bool.false_ne_true
    exact List.dropWhile_cons_of_neg hc

theorem dropWhile_cons_false (p : Char → Bool) (c : Char) (l : List Char)
    (h : p c = false) : (c :: l).dropWhile p = c :: l := by
  simp [List.dropWhile, h]

theorem dropTrail_snoc_true (p : Char → Bool) (l : List Char) (c : Char)
    (hc : p c = true) (hl : ∀ x ∈ l, p x = false) :
    dropTrail p (l ++ [c]) = l := by
  unfold dropTrail
  rw [show (l ++ [c]).reverse = c :: l.reverse by simp,
    List.dropWhile_cons_of_pos hc,
    dropWhile_all_false p l.reverse (fun x hx => hl x (List.mem_reverse.mp hx)),
    List.reverse_reverse]

theorem pyStrip_digits (n : Nat) :
    pyStrip ')' (natDigits n ++ [')']) = natDigits n := by
  have hall : ∀ x ∈ natDigits n, (x == ')') = false :=
    fun x hx => (digit_ne_chars x (natDigits_digits n x hx)).2.2.2
  obtain ⟨d, ds, hd⟩ := List.exists_cons_of_ne_nil (natDigits_ne_nil n)
  have hfd : (d == ')') = false := hall d (by rw [hd]; exact List.mem_cons_self d ds)
  unfold pyStrip
  rw [hd, List.cons_append,
    dropWhile_cons_false (fun x => x == ')') d (ds ++ [')']) hfd,
    ← List.cons_append, ← hd]
  exact dropTrail_snoc_true _ _ _ (by simp) hall

theorem pyInt_natDigits (n : Nat) : pyInt (natDigits n) = some (n : Int) := by
  have hdig : ∀ c ∈ natDigits n, isDigitC c = true := natDigits_digits n
  obtain ⟨d, ds, hd⟩ := List.exists_cons_of_ne_nil (natDigits_ne_nil n)
  have hdd : isDigitC d = true := hdig d (by rw [hd]; exact List.mem_cons_self d ds)
  have hne := digit_ne_chars d hdd
  unfold pyInt
  rw [dropWhile_all_false Char.isWhitespace (natDigits n)
    (fun c hc => digit_not_ws c (hdig c hc))]
  unfold dropTrail
  rw [dropWhile_all_false Char.isWhitespace (natDigits n).reverse
      (fun c hc => digit_not_ws c (hdig c (List.mem_reverse.mp hc))),
    List.reverse_reverse, hd]
  simp only [pyIntCore]
  rw [if_neg hne.1, if_neg hne.2.1,
    if_pos (by rw [← hd]; exact List.all_eq_true.mpr hdig)]
  rw [← hd, digitsVal_natDigits]

theorem no_occ_idSep_digits (n : Nat) : ¬ occursIn idSep (natDigits n ++ [')']) := by
  rintro ⟨x, y, h⟩
  have hI : 'I' ∈ natDigits n ++ [')'] := by
    rw [h]
    simp [idSep]
  rcases List.mem_append.mp hI with hc | hc
  · exact absurd (natDigits_digits n 'I' hc) (by decide)
  · simp at hc

theorem no_occ_label_left (name : List Char)
    (h1 : ¬ occursIn idSep name)
    (h2 : ∀ x, name ≠ x ++ ['I', 'D', ':']) :
    ¬ occursIn idSep ((name ++ [' ', '(']) ++ idSep).dropLast := by
  have hexp : ((name ++ [' ', '(']) ++ idSep).dropLast
      = name ++ [' ', '(', 'I', 'D', ':'] := by
    have hsp : (name ++ [' ', '(']) ++ idSep
        = (name ++ [' ', '(', 'I', 'D', ':']) ++ [' '] := by
      simp [idSep]
    rw [hsp, List.dropLast_concat]
  rw [hexp,
    show name ++ [' ', '(', 'I', 'D', ':'] = (name ++ [' ', '(', 'I', 'D']) ++ [':'] by simp,
    occursIn_snoc]
  rintro (h | ⟨x, hx⟩)
  · rw [show name ++ [' ', '(', 'I', 'D'] = (name ++ [' ', '(', 'I']) ++ ['D'] by simp,
      occursIn_snoc] at h
    rcases h with h | ⟨x, hx⟩
    · rw [show name ++ [' ', '(', 'I'] = (name ++ [' ', '(']) ++ ['I'] by simp,
        occursIn_snoc] at h
      rcases h with h | ⟨x, hx⟩
      · rw [show name ++ [' ', '('] = (name ++ [' ']) ++ ['('] by simp,
          occursIn_snoc] at h
        rcases h with h | ⟨x, hx⟩
        · rw [occursIn_snoc] at h
          rcases h with h | ⟨x, hx⟩
          · exact h1 h
          · have hx' : name ++ [' '] = (x ++ ['I', 'D', ':']) ++ [' '] := by
              rw [hx]; simp [idSep]
            exact h2 x (snoc_inj hx').1
        · have hx' : (name ++ [' ']) ++ ['('] = (x ++ ['I', 'D', ':']) ++ [' '] := by
            rw [hx]; simp [idSep]
          exact absurd (snoc_inj hx').2 (by decide)
      · have hx' : (name ++ [' ', '(']) ++ ['I'] = (x ++ ['I', 'D', ':']) ++ [' '] := by
          rw [hx]; simp [idSep]
        exact absurd (snoc_inj hx').2 (by decide)
    · have hx' : (name ++ [' ', '(', 'I']) ++ ['D'] = (x ++ ['I', 'D', ':']) ++ [' '] := by
        rw [hx]; simp [idSep]
      exact absurd (snoc_inj hx').2 (by decide)
  · have hx' : (name ++ [' ', '(', 'I', 'D']) ++ [':'] = (x ++ ['I', 'D', ':']) ++ [' '] := by
      rw [hx]; simp [idSep]
    exact absurd (snoc_inj hx').2 (by decide)

theorem endsWithB_iff (suffix l : List Char) :
    endsWithB suffix l = true ↔ ∃ x, l = x ++ suffix := by
  unfold endsWithB
  rw [isPreB_iff]
  constructor
  · rintro ⟨t, ht⟩
    refine ⟨t.reverse, ?_⟩
    have h' := congrArg List.reverse ht
    simpa using h'
  · rintro ⟨x, rfl⟩
    exact ⟨x.reverse, by simp⟩

/-- C10 counterexample: the name `"XID:"` does not contain the substring
`"ID: "`, yet the label `"XID: (ID: 5)"` splits into three parts (the name
creates an earlier `"ID: "` occurrence together with the following
`" ("`), so the parsing step takes the wrong part and `int()` fails —
the round-trip does not recover the id. -/
theorem C10_parse_counterexample :
    occursB idSep ("XID:".data) = false
      ∧ parseLabel (formatLabel ("XID:".data) 5) = none := by
  decide

/-- C10 (amended): for every record whose Name neither contains the
substring `"ID: "` nor ends with `"ID:"`, and whose id is a non-negative
integer, formatting the dropdown label `"(Name) (ID: (id))"` and parsing it
back with `split("ID: ")[1].strip(")")` followed by `int()` recovers the
original id. -/
theorem C10_label_roundtrip (name : List Char) (id : Nat)
    (h1 : occursB idSep name = false)
    (h2 : endsWithB ['I', 'D', ':'] name = false) :
    parseLabel (formatLabel name id) = some (id : Int) := by
  have h1' : ¬ occursIn idSep name := by
    intro h
    have ht := (occursB_iff idSep name).mpr h
    rw [h1] at ht
    exact Bool.false_ne_true ht
  have h2' : ∀ x, name ≠ x ++ ['I', 'D', ':'] := by
    intro x hx
    have ht : endsWithB ['I', 'D', ':'] name = true := (endsWithB_iff _ _).mpr ⟨x, hx⟩
    rw [h2] at ht
    exact Bool.false_ne_true ht
  have hform : formatLabel name id
      = (name ++ [' ', '(']) ++ idSep ++ (natDigits id ++ [')']) := by
    simp [formatLabel]
  have hsplit : pySplit idSep (formatLabel name id)
      = [name ++ [' ', '('], natDigits id ++ [')']] := by
    rw [hform]
    exact pySplit_boundary idSep (name ++ [' ', '(']) (natDigits id ++ [')'])
      (by decide) (no_occ_label_left name h1' h2') (no_occ_idSep_digits id)
  rw [parseLabel, hsplit]
  show pyInt (pyStrip ')' (natDigits id ++ [')'])) = some (id : Int)
  rw [pyStrip_digits, pyInt_natDigits]

theorem C10_witness :
    parseLabel (formatLabel ("John Doe".data) 42) = some (42 : Int) :=
  C10_label_roundtrip ("John Doe".data) 42 (by decide) (by decide)
